import Mathlib

/-!
Shallow embedding of `FramesPerSecond::FPSEstimator` (the header-only
FPS-estimation class, source file `fps.h`).

Modelling conventions:
* A `std::chrono::steady_clock::time_point` is modelled as its nanosecond
  count, an integer (`ℤ`).
* C++ `float` arithmetic is modelled over the rationals (`ℚ`), mirroring the
  exact expressions of the source.  Rational division is total (`x / 0 = 0`),
  which matters only in the degenerate `0/0` spot that the development flags
  explicitly (in C++ this is a NaN).
* The two function-local `static int cleanup` counters (one inside the
  `CountSamples` case, one inside the `AverageIntervals` case) are modelled as
  two fields of the estimator state, `cleanup_count` and `cleanup_avg`; both
  are zero-initialised, as C++ statics are.
* The literal `return -1.f` executed on the insufficient-data paths is
  modelled by the dedicated constructor `FPSResult.insufficient`; the
  `throw std::runtime_error(...)` of the `default:` case is modelled by
  `FPSResult.thrown`; an ordinary `return v` is `FPSResult.value v`.
* The C++ `EstimationMethod` enum has underlying values `CountSamples = 0`
  and `AverageIntervals = 1`; since a C++ enum variable can carry other
  integer values (which the `switch` sends to `default:`), the `method`
  argument is modelled as an integer.
-/

namespace FramesPerSecond

/-- State of one `FPSEstimator` instance.  `m_sample_times` is the
`std::vector<TIME_POINT_T> m_sample_times` (timestamps in nanoseconds, in
insertion order); `m_rolling` and `m_decay_factor` are the two float members;
`cleanup_count` / `cleanup_avg` model the two `static int cleanup` counters
of `FPS`'s two switch cases. -/
structure FPSEstimator where
  m_sample_times : List ℤ
  m_rolling : ℚ
  m_decay_factor : ℚ
  cleanup_count : ℕ
  cleanup_avg : ℕ
deriving Repr, DecidableEq

/-- `NanosecondsBetween(end, start)`: despite its name it returns
`duration_cast<nanoseconds>(end-start).count() / 1e3f`, i.e. microseconds. -/
def NanosecondsBetween (e s : ℤ) : ℚ := ((e - s : ℤ) : ℚ) / 1000

/-- Result of one call to `FPSEstimator::FPS`.  `insufficient` models the
`return -1.f` taken on the insufficient-data paths, `value v` an ordinary
return of the float `v`, and `thrown` the `throw std::runtime_error` of the
`default:` switch case. -/
inductive FPSResult where
  | insufficient : FPSResult
  | value : ℚ → FPSResult
  | thrown : FPSResult
deriving Repr, DecidableEq

/-- The break condition of both backward-scan loops:
`NanosecondsBetween(now, m_sample_times[i]) >= (window_seconds*1e6f)`. -/
def outOfWindow (now : ℤ) (w : ℚ) (t : ℤ) : Bool :=
  w * 1000000 ≤ NanosecondsBetween now t

/-- The backward scan `for (; i >= 0; --i) { if (out-of-window) break;
++samples; }`, started at index `k` (the source starts it at
`m_sample_times.size()-1`).  Returns the final value of `i` (the index where
the loop broke, or `-1` when the scan consumed the whole history) together
with the number of in-window samples counted. -/
def scanIdx (now : ℤ) (w : ℚ) (ts : List ℤ) : ℕ → ℤ × ℕ
  | 0 => if outOfWindow now w (ts.getD 0 0) then (0, 0) else (-1, 1)
  | k + 1 =>
      if outOfWindow now w (ts.getD (k + 1) 0) then ((k : ℤ) + 1, 0)
      else ((scanIdx now w ts k).1, (scanIdx now w ts k).2 + 1)

/-- The `case CountSamples:` block of `FPSEstimator::FPS` (reached only with
non-empty history).  The scan counts in-window samples; `if (i <= 0)` returns
the sentinel; otherwise the `static int cleanup` counter is incremented and,
on reaching 1000, reset to 0 while `m_sample_times.erase(begin, begin+i-1)`
drops the `i-1` oldest entries; then `m_rolling` is updated and either the
rolling or the instantaneous estimate `samples/window_seconds` is returned. -/
def FPSEstimator.countSamplesCase (est : FPSEstimator) (window_seconds : ℚ)
    (soft_estimate : Bool) (now : ℤ) : FPSResult × FPSEstimator :=
  let n := est.m_sample_times.length
  let scan := scanIdx now window_seconds est.m_sample_times (n - 1)
  let i : ℤ := scan.1
  let samples : ℕ := scan.2
  if i ≤ 0 then (.insufficient, est)
  else
    let cleanup := est.cleanup_count + 1
    let times' := if 1000 ≤ cleanup then est.m_sample_times.drop (i - 1).toNat
                  else est.m_sample_times
    let cleanup' := if 1000 ≤ cleanup then 0 else cleanup
    let inst : ℚ := (samples : ℚ) / window_seconds
    let rolling' := est.m_decay_factor * est.m_rolling +
                    (1 - est.m_decay_factor) * inst
    (.value (if soft_estimate then rolling' else inst),
     { est with m_sample_times := times', cleanup_count := cleanup',
                m_rolling := rolling' })

/-- The `case AverageIntervals:` block of `FPSEstimator::FPS` (reached only
with non-empty history).  `youngest_sample = m_sample_times[size()-1]` is read
before the scan; `if (i < 0)` returns the sentinel; otherwise
`average_interval = NanosecondsBetween(youngest_sample, m_sample_times[i]) /
samples` and `fps_estimate = 1e6f / average_interval` (in C++ `samples == 0`
makes this `0.0f/0` = NaN; rational division renders the same expression
totally), the cleanup counter/erase behave as in the other case (for `i = 0`
the C++ erase range `begin()..begin()-1` is invalid; the model drops
`(i-1).toNat = 0` entries there), then `m_rolling` is updated and either the
rolling or the instantaneous estimate is returned. -/
def FPSEstimator.averageIntervalsCase (est : FPSEstimator) (window_seconds : ℚ)
    (soft_estimate : Bool) (now : ℤ) : FPSResult × FPSEstimator :=
  let n := est.m_sample_times.length
  let scan := scanIdx now window_seconds est.m_sample_times (n - 1)
  let i : ℤ := scan.1
  let samples : ℕ := scan.2
  let youngest_sample := est.m_sample_times.getD (n - 1) 0
  if i < 0 then (.insufficient, est)
  else
    let cleanup := est.cleanup_avg + 1
    let times' := if 1000 ≤ cleanup then est.m_sample_times.drop (i - 1).toNat
                  else est.m_sample_times
    let cleanup' := if 1000 ≤ cleanup then 0 else cleanup
    let average_interval :=
      NanosecondsBetween youngest_sample (est.m_sample_times.getD i.toNat 0) /
      (samples : ℚ)
    let fps_estimate := 1000000 / average_interval
    let rolling' := est.m_decay_factor * est.m_rolling +
                    (1 - est.m_decay_factor) * fps_estimate
    (.value (if soft_estimate then rolling' else fps_estimate),
     { est with m_sample_times := times', cleanup_avg := cleanup',
                m_rolling := rolling' })

/-- `FPSEstimator::FPS(window_seconds, soft_estimate, method)`.
`if (m_sample_times.size() <= 0) return -1.f;` precedes the `switch (method)`;
`CountSamples = 0`, `AverageIntervals = 1`, anything else hits `default:`
which throws.  `now` (the `Now()` calls inside the cases) is passed
explicitly. -/
def FPSEstimator.FPS (est : FPSEstimator) (window_seconds : ℚ)
    (soft_estimate : Bool) (method : ℤ) (now : ℤ) :
    FPSResult × FPSEstimator :=
  if est.m_sample_times.length = 0 then (.insufficient, est)
  else if method = 0 then est.countSamplesCase window_seconds soft_estimate now
  else if method = 1 then
    est.averageIntervalsCase window_seconds soft_estimate now
  else (.thrown, est)

/-- `FPSEstimator::AddSample()`: appends the current time to
`m_sample_times`. -/
def FPSEstimator.AddSample (est : FPSEstimator) (now : ℤ) : FPSEstimator :=
  { est with m_sample_times := est.m_sample_times ++ [now] }

/-- `FPSEstimator::SetDecayFactor(new_decay_factor)`. -/
def FPSEstimator.SetDecayFactor (est : FPSEstimator) (d : ℚ) : FPSEstimator :=
  { est with m_decay_factor := d }

/-- `FPSEstimator::Reset()`: `m_sample_times.clear();` and nothing else. -/
def FPSEstimator.Reset (est : FPSEstimator) : FPSEstimator :=
  { est with m_sample_times := [] }

/-- A freshly constructed `FPSEstimator`: `m_rolling(0.f), m_decay_factor(0.f)`
with an empty vector; the two static cleanup counters are zero-initialised. -/
def FPSEstimator.init : FPSEstimator :=
  { m_sample_times := [], m_rolling := 0, m_decay_factor := 0,
    cleanup_count := 0, cleanup_avg := 0 }

/-- The instantaneous estimate the source computes for each method on the
success path: `samples/window_seconds` for `CountSamples`, and
`1e6f / (NanosecondsBetween(youngest, m_sample_times[i]) / samples)` for
`AverageIntervals`. -/
def instEstimate (est : FPSEstimator) (w : ℚ) (method : ℤ) (now : ℤ) : ℚ :=
  let n := est.m_sample_times.length
  let scan := scanIdx now w est.m_sample_times (n - 1)
  if method = 0 then (scan.2 : ℚ) / w
  else
    1000000 /
      (NanosecondsBetween (est.m_sample_times.getD (n - 1) 0)
         (est.m_sample_times.getD scan.1.toNat 0) / (scan.2 : ℚ))

/-- The `AverageIntervals` rate as claim C1 words it (following the spec text,
for comparison with the source's computation): the elapsed duration between
the *oldest in-window sample* and the most recent sample, divided by the
number of in-window samples, inverted to a rate. -/
def claimAvgIntervalsRate (now : ℤ) (w : ℚ) (ts : List ℤ) : ℚ :=
  let inw := ts.reverse.takeWhile (fun t => !outOfWindow now w t)
  let youngest := inw.headD 0
  let oldest := inw.getLastD 0
  1000000 / (NanosecondsBetween youngest oldest / (inw.length : ℚ))

/-! ### Properties of the backward scan -/

/-- Loop invariant of the backward scan: the final index plus the number of
counted samples equals the start index. -/
theorem scanIdx_add (now : ℤ) (w : ℚ) (ts : List ℤ) :
    ∀ k : ℕ, (scanIdx now w ts k).1 + ((scanIdx now w ts k).2 : ℤ) = k := by
  intro k
  induction k with
  | zero => simp only [scanIdx]; split <;> simp
  | succ k ih =>
      simp only [scanIdx]; split
      · simp
      · push_cast
        push_cast at ih
        omega

/-- The final index of the backward scan is at least `-1`. -/
theorem scanIdx_ge (now : ℤ) (w : ℚ) (ts : List ℤ) :
    ∀ k : ℕ, -1 ≤ (scanIdx now w ts k).1 := by
  intro k
  induction k with
  | zero => simp only [scanIdx]; split <;> simp
  | succ k ih =>
      simp only [scanIdx]; split
      · omega
      · exact ih

/-- The final index of the backward scan is at most the start index. -/
theorem scanIdx_le (now : ℤ) (w : ℚ) (ts : List ℤ) :
    ∀ k : ℕ, (scanIdx now w ts k).1 ≤ k := by
  intro k
  have h := scanIdx_add now w ts k
  omega

/-- When the scan ends at a non-negative index, the loop broke there: the
sample at that index is out of the window. -/
theorem scanIdx_break (now : ℤ) (w : ℚ) (ts : List ℤ) :
    ∀ k : ℕ, 0 ≤ (scanIdx now w ts k).1 →
      outOfWindow now w (ts.getD (scanIdx now w ts k).1.toNat 0) = true := by
  intro k
  induction k with
  | zero =>
      simp only [scanIdx]; split
      case isTrue h => intro _; exact h
      case isFalse h => intro hle; exact absurd hle (by decide)
  | succ k ih =>
      simp only [scanIdx]; split
      case isTrue h =>
        intro _
        show outOfWindow now w (ts.getD ((k : ℤ) + 1).toNat 0) = true
        have he : ((k : ℤ) + 1).toNat = k + 1 := by omega
        rw [he]; exact h
      case isFalse h => exact ih

/-- Every sample the scan stepped over (index strictly above the final index,
at most the start index) is inside the window. -/
theorem scanIdx_inWindow (now : ℤ) (w : ℚ) (ts : List ℤ) :
    ∀ k j : ℕ, j ≤ k → (scanIdx now w ts k).1 < j →
      outOfWindow now w (ts.getD j 0) = false := by
  intro k
  induction k with
  | zero =>
      intro j hj hlt
      interval_cases j
      simp only [scanIdx] at hlt
      split at hlt
      case isTrue h =>
        exact absurd (show (0 : ℤ) < 0 from hlt) (by decide)
      case isFalse h =>
        simp only [Bool.not_eq_true] at h
        exact h
  | succ k ih =>
      intro j hj hlt
      simp only [scanIdx] at hlt
      split at hlt
      case isTrue h =>
        exfalso
        have hlt' : ((k : ℤ) + 1) < (j : ℤ) := hlt
        omega
      case isFalse h =>
        rcases Nat.lt_or_ge j (k + 1) with hj' | hj'
        · exact ih j (by omega) hlt
        · have hjk : j = k + 1 := by omega
          subst hjk
          simp only [Bool.not_eq_true] at h
          exact h

/-! ### Characterization of the query function -/

/-- A query that returns a value updates `m_rolling` by the decay blend of the
method's instantaneous estimate, returns the rolling estimate iff
`soft_estimate`, and leaves `m_decay_factor` untouched. -/
theorem FPS_value_characterization (est est' : FPSEstimator) (w : ℚ)
    (soft : Bool) (m now : ℤ) (v : ℚ)
    (h : est.FPS w soft m now = (FPSResult.value v, est')) :
    est'.m_rolling = est.m_decay_factor * est.m_rolling +
        (1 - est.m_decay_factor) * instEstimate est w m now ∧
    v = (if soft then est'.m_rolling else instEstimate est w m now) ∧
    est'.m_decay_factor = est.m_decay_factor := by
  simp only [FPSEstimator.FPS] at h
  split at h
  · simp at h
  · split at h
    case isTrue hm =>
      subst hm
      simp only [FPSEstimator.countSamplesCase] at h
      split at h
      · simp at h
      case isFalse hile =>
        rw [Prod.mk.injEq, FPSResult.value.injEq] at h
        obtain ⟨hv, hst⟩ := h
        subst hst
        refine ⟨by simp [instEstimate], ?_, rfl⟩
        rw [← hv]
        cases soft <;> simp [instEstimate]
    case isFalse hm =>
      split at h
      case isTrue hm1 =>
        subst hm1
        simp only [FPSEstimator.averageIntervalsCase] at h
        split at h
        · simp at h
        case isFalse hilt =>
          rw [Prod.mk.injEq, FPSResult.value.injEq] at h
          obtain ⟨hv, hst⟩ := h
          subst hst
          refine ⟨by simp [instEstimate], ?_, rfl⟩
          rw [← hv]
          cases soft <;> simp [instEstimate]
      case isFalse hm1 =>
        simp at h


/-- A query that does not return a value (insufficient data, or the thrown
`default:` case) leaves the estimator state entirely unchanged. -/
theorem FPS_nonvalue_state (est : FPSEstimator) (w : ℚ) (soft : Bool)
    (m now : ℤ)
    (h : (est.FPS w soft m now).1 = FPSResult.insufficient ∨
         (est.FPS w soft m now).1 = FPSResult.thrown) :
    (est.FPS w soft m now).2 = est := by
  simp only [FPSEstimator.FPS] at h ⊢
  split at h
  case isTrue hlen => rw [if_pos hlen]
  case isFalse hlen =>
    rw [if_neg hlen]
    split at h
    case isTrue hm =>
      rw [if_pos hm]
      simp only [FPSEstimator.countSamplesCase] at h ⊢
      split at h
      case isTrue hile => rw [if_pos hile]
      case isFalse hile =>
        rcases h with h | h <;> simp at h
    case isFalse hm =>
      rw [if_neg hm]
      split at h
      case isTrue hm1 =>
        rw [if_pos hm1]
        simp only [FPSEstimator.averageIntervalsCase] at h ⊢
        split at h
        case isTrue hilt => rw [if_pos hilt]
        case isFalse hilt =>
          rcases h with h | h <;> simp at h
      case isFalse hm1 =>
        rw [if_neg hm1]

/-! ### Claim theorems -/

/-- C1 (counterexample): the claim says the AverageIntervals rate inverts the
average obtained from the elapsed duration between the *oldest in-window
sample* and the most recent sample.  With samples at 0ns, 900000000ns and
1000000000ns, `now` = 1000000000ns and a 0.5s window, the in-window samples
are the last two, so that reading predicts a rate of 20; the code instead
anchors the interval at `m_sample_times[i]` (the sample at 0ns, which is out
of the window) and returns 2. -/
theorem c1_avg_intervals_counterexample :
    (FPSEstimator.FPS ⟨[0, 900000000, 1000000000], 0, 0, 0, 0⟩ (1/2) false 1
        1000000000).1 = FPSResult.value 2 ∧
    claimAvgIntervalsRate 1000000000 (1/2) [0, 900000000, 1000000000] = 20 ∧
    (2 : ℚ) ≠ 20 := by
  norm_num [FPSEstimator.FPS, FPSEstimator.averageIntervalsCase, scanIdx,
    outOfWindow, NanosecondsBetween, claimAvgIntervalsRate, List.takeWhile]

/-- C1 (amended): for every AverageIntervals query that succeeds (the scan
ends at index `i ≥ 0`), the sample at index `i` is *out of* the window and
all samples above it are in the window, and the returned instantaneous rate
is the inverse of the average interval obtained by dividing the elapsed
duration between the sample at index `i` (the boundary anchor, the youngest
out-of-window sample) and the most recent sample by the number of in-window
samples. -/
theorem c1_avg_intervals_anchor_interval (est : FPSEstimator) (w : ℚ)
    (now : ℤ) (i : ℤ) (s : ℕ)
    (hscan : scanIdx now w est.m_sample_times
        (est.m_sample_times.length - 1) = (i, s))
    (hn : est.m_sample_times ≠ []) (hi : 0 ≤ i) :
    outOfWindow now w (est.m_sample_times.getD i.toNat 0) = true ∧
    (∀ j : ℕ, (i : ℤ) < j → j ≤ est.m_sample_times.length - 1 →
        outOfWindow now w (est.m_sample_times.getD j 0) = false) ∧
    (est.FPS w false 1 now).1 =
      FPSResult.value (1000000 /
        (NanosecondsBetween
            (est.m_sample_times.getD (est.m_sample_times.length - 1) 0)
            (est.m_sample_times.getD i.toNat 0) / (s : ℚ))) := by
  have hlen : ¬ est.m_sample_times.length = 0 := by
    simpa [List.length_eq_zero] using hn
  refine ⟨?_, ?_, ?_⟩
  · have hb := scanIdx_break now w est.m_sample_times
      (est.m_sample_times.length - 1)
    rw [hscan] at hb
    exact hb hi
  · intro j hj1 hj2
    have hw := scanIdx_inWindow now w est.m_sample_times
      (est.m_sample_times.length - 1) j hj2
    rw [hscan] at hw
    exact hw hj1
  · have hne : ¬ i < 0 := by omega
    simp [FPSEstimator.FPS, FPSEstimator.averageIntervalsCase, hscan, hlen,
      hne]

/-- C1 witness: the concrete AverageIntervals query above succeeds and
returns the anchored-interval rate. -/
theorem c1_avg_intervals_anchor_interval_witness :
    (FPSEstimator.FPS ⟨[0, 900000000, 1000000000], 0, 0, 0, 0⟩ (1/2) false 1
        1000000000).1 =
      FPSResult.value (1000000 /
        (NanosecondsBetween
            (([0, 900000000, 1000000000] : List ℤ).getD
              (([0, 900000000, 1000000000] : List ℤ).length - 1) 0)
            (([0, 900000000, 1000000000] : List ℤ).getD (0 : ℤ).toNat 0) /
          ((2 : ℕ) : ℚ))) :=
  (c1_avg_intervals_anchor_interval
    ⟨[0, 900000000, 1000000000], 0, 0, 0, 0⟩ (1/2) 1000000000 0 2
    (by norm_num [scanIdx, outOfWindow, NanosecondsBetween])
    (by decide) (by decide)).2.2

/-- C2 (code bug): with samples at simulated times 0, 100, 200, 300 and
400 ms and `window_seconds = 0.35` queried at `now` = 400 ms, the backward
scan stops at index 0 having counted the four in-window samples — it found an
out-of-window timestamp, so per the claim (and the code's own comment, which
speaks of a *negative* index) the query should succeed with rate 4/0.35; the
code's `if (i <= 0)` test nevertheless returns the -1 sentinel. -/
theorem c2_count_samples_boundary_bug :
    scanIdx 400000000 (35/100)
        [0, 100000000, 200000000, 300000000, 400000000] 4 = (0, 4) ∧
    (FPSEstimator.FPS
        ⟨[0, 100000000, 200000000, 300000000, 400000000], 0, 0, 0, 0⟩
        (35/100) false 0 400000000).1 = FPSResult.insufficient := by
  norm_num [FPSEstimator.FPS, FPSEstimator.countSamplesCase, scanIdx,
    outOfWindow, NanosecondsBetween]

/-- C3 (code bug): an AverageIntervals query with zero in-window samples
(history [0ns, 100000000ns], `now` = 2s, window 1s — the scan breaks
immediately, counting 0) is *not* detected before the interval arithmetic and
does not return the sentinel: the code divides by the zero sample count (in
C++ `0.0f/0` is NaN) and takes the success path.  Likewise a query with
exactly one in-window sample (history [0ns, 1500000000ns]) succeeds with the
finite value 2/3 instead of returning the sentinel. -/
theorem c3_avg_intervals_degenerate_bug :
    (scanIdx 2000000000 1 [0, 100000000] 1).2 = 0 ∧
    (FPSEstimator.FPS ⟨[0, 100000000], 0, 0, 0, 0⟩ 1 false 1
        2000000000).1 ≠ FPSResult.insufficient ∧
    (FPSEstimator.FPS ⟨[0, 1500000000], 0, 0, 0, 0⟩ 1 false 1
        2000000000).1 = FPSResult.value (2/3) := by
  norm_num [FPSEstimator.FPS, FPSEstimator.averageIntervalsCase, scanIdx,
    outOfWindow, NanosecondsBetween]
  decide

/-- C4: a query that fails with the insufficient-data sentinel (or aborts by
throwing) leaves `m_rolling` — indeed the whole estimator state — exactly
unchanged; only value-returning queries modify it. -/
theorem c4_failed_query_preserves_rolling (est : FPSEstimator) (w : ℚ)
    (soft : Bool) (m now : ℤ)
    (h : (est.FPS w soft m now).1 = FPSResult.insufficient ∨
         (est.FPS w soft m now).1 = FPSResult.thrown) :
    (est.FPS w soft m now).2.m_rolling = est.m_rolling ∧
    (est.FPS w soft m now).2 = est := by
  have hs := FPS_nonvalue_state est w soft m now h
  exact ⟨by rw [hs], hs⟩

/-- C4 witness: an empty-history query fails with the sentinel and leaves the
freshly constructed state unchanged. -/
theorem c4_failed_query_preserves_rolling_witness :
    (FPSEstimator.FPS FPSEstimator.init 1 false 0 0).2.m_rolling =
        FPSEstimator.init.m_rolling ∧
    (FPSEstimator.FPS FPSEstimator.init 1 false 0 0).2 = FPSEstimator.init :=
  c4_failed_query_preserves_rolling FPSEstimator.init 1 false 0 0
    (Or.inl (by decide))

/-- C5: every successful (value-returning) query updates `m_rolling` to
`decay_factor * old + (1 - decay_factor) * instantaneous`, where
`instantaneous` is the estimate of the chosen method for this call, and
returns the rolling estimate when `soft_estimate` is true and the
instantaneous estimate when it is false. -/
theorem c5_success_updates_rolling (est est' : FPSEstimator) (w : ℚ)
    (soft : Bool) (m now : ℤ) (v : ℚ)
    (h : est.FPS w soft m now = (FPSResult.value v, est')) :
    est'.m_rolling = est.m_decay_factor * est.m_rolling +
        (1 - est.m_decay_factor) * instEstimate est w m now ∧
    v = (if soft then est'.m_rolling else instEstimate est w m now) :=
  ⟨(FPS_value_characterization est est' w soft m now v h).1,
   (FPS_value_characterization est est' w soft m now v h).2.1⟩

/-- C5 witness: a successful CountSamples query at a concrete state. -/
theorem c5_success_updates_rolling_witness :
    ({ m_sample_times := [0, 0, 1000000000], m_rolling := 1,
       m_decay_factor := 0, cleanup_count := 1,
       cleanup_avg := 0 } : FPSEstimator).m_rolling =
      (0 : ℚ) * 0 + (1 - 0) *
        instEstimate ⟨[0, 0, 1000000000], 0, 0, 0, 0⟩ 1 0 1000000000 ∧
    (1 : ℚ) = (if false then
        ({ m_sample_times := [0, 0, 1000000000], m_rolling := 1,
           m_decay_factor := 0, cleanup_count := 1,
           cleanup_avg := 0 } : FPSEstimator).m_rolling
      else instEstimate ⟨[0, 0, 1000000000], 0, 0, 0, 0⟩ 1 0 1000000000) :=
  c5_success_updates_rolling ⟨[0, 0, 1000000000], 0, 0, 0, 0⟩
    ⟨[0, 0, 1000000000], 1, 0, 1, 0⟩ 1 false 0 1000000000 1
    (by norm_num [FPSEstimator.FPS, FPSEstimator.countSamplesCase, scanIdx,
      outOfWindow, NanosecondsBetween])

/-- C6 (code bug): a history holding exactly one recorded timestamp does
*not* always produce the sentinel: an AverageIntervals query whose single
sample is out of the window (sample at 0ns, `now` = 2s, window 1s) takes the
success path and performs the degenerate `0/0` division (NaN in C++) instead
of returning the insufficient-data sentinel. -/
theorem c6_single_stale_sample_bug :
    (FPSEstimator.FPS ⟨[0], 0, 0, 0, 0⟩ 1 false 1 2000000000).1 ≠
        FPSResult.insufficient ∧
    (FPSEstimator.FPS ⟨[0], 0, 0, 0, 0⟩ 1 false 1 2000000000).1 =
        FPSResult.value 0 := by
  norm_num [FPSEstimator.FPS, FPSEstimator.averageIntervalsCase, scanIdx,
    outOfWindow, NanosecondsBetween]
  decide

/-- C7 (counterexample): with history [0, 1s, 2s, 2.5s, 4s] (in ns), a 1s
window queried at `now` = 4s (so the only in-window sample is the one at 4s,
and the one immediately preceding it is the sample at 2.5s) and the
CountSamples cleanup counter at 999, the 1000th successful CountSamples query
prunes — but the claim's reading ("remove all entries before the first
in-window sample, keeping the one immediately preceding it") predicts the
kept history [2.5s, 4s], while the code keeps [2s, 2.5s, 4s]: one entry more
than the boundary anchor.  Moreover the cadence is not a single count of
successful queries: from the very same state (the CountSamples counter at
999, i.e. 999 successful queries recorded there) a successful
AverageIntervals query does *not* prune, while it does prune when its own
case's counter is at 999 — the two switch cases keep separate static
counters. -/
theorem c7_prune_counterexample :
    (FPSEstimator.FPS
        ⟨[0, 1000000000, 2000000000, 2500000000, 4000000000], 0, 0, 999, 0⟩
        1 false 0 4000000000).2.m_sample_times =
      [2000000000, 2500000000, 4000000000] ∧
    ([2000000000, 2500000000, 4000000000] : List ℤ) ≠
      [2500000000, 4000000000] ∧
    (FPSEstimator.FPS
        ⟨[0, 1000000000, 2000000000, 2500000000, 4000000000], 0, 0, 999, 0⟩
        1 false 1 4000000000).2.m_sample_times =
      [0, 1000000000, 2000000000, 2500000000, 4000000000] ∧
    (FPSEstimator.FPS
        ⟨[0, 1000000000, 2000000000, 2500000000, 4000000000], 0, 0, 0, 999⟩
        1 false 1 4000000000).2.m_sample_times =
      [2000000000, 2500000000, 4000000000] := by
  norm_num [FPSEstimator.FPS, FPSEstimator.countSamplesCase,
    FPSEstimator.averageIntervalsCase, scanIdx, outOfWindow,
    NanosecondsBetween]
  all_goals decide

/-- C7 (amended): on every 1000th successful query of a given method (each
switch case keeps its own static cleanup counter), with the scan ending at
the anchor index `i ≥ 1`, the pruned history is exactly `drop (i-1)` of the
old one: the code removes the contiguous prefix of the `i-1` oldest entries,
keeping the boundary anchor at index `i` *and one further entry before it*
(index `i-1`), rather than all entries before the first in-window sample;
the prune removes only a contiguous prefix, keeps the counted in-window
samples (the suffix from index `i+1`) intact, and preserves chronological
sortedness.  (A 1000th successful AverageIntervals query whose scan ends at
`i = 0` executes `erase(begin(), begin()-1)`, an invalid range and hence
undefined behaviour in C++; no pruning behaviour is claimed there, so the
theorem requires `i ≥ 1`.) -/
theorem c7_prune_amended (est : FPSEstimator) (w : ℚ) (soft : Bool)
    (now : ℤ) (m i : ℤ) (s : ℕ)
    (hm : m = 0 ∨ m = 1)
    (hscan : scanIdx now w est.m_sample_times
        (est.m_sample_times.length - 1) = (i, s))
    (hn : est.m_sample_times ≠ []) (hi : 1 ≤ i)
    (hc : (if m = 0 then est.cleanup_count else est.cleanup_avg) = 999) :
    (est.FPS w soft m now).2.m_sample_times =
        est.m_sample_times.drop (i - 1).toNat ∧
    (est.m_sample_times.take (i - 1).toNat ++
          (est.FPS w soft m now).2.m_sample_times = est.m_sample_times ∧
      (est.m_sample_times.take (i - 1).toNat).length = (i - 1).toNat) ∧
    (∃ q, (est.FPS w soft m now).2.m_sample_times =
        q ++ est.m_sample_times.drop (i + 1).toNat) ∧
    (est.m_sample_times.Sorted (· ≤ ·) →
        (est.FPS w soft m now).2.m_sample_times.Sorted (· ≤ ·)) := by
  have hlen : ¬ est.m_sample_times.length = 0 := by
    simpa [List.length_eq_zero] using hn
  have hle := scanIdx_le now w est.m_sample_times
    (est.m_sample_times.length - 1)
  rw [hscan] at hle
  have hmain : (est.FPS w soft m now).2.m_sample_times =
      est.m_sample_times.drop (i - 1).toNat := by
    rcases hm with hm | hm
    · subst hm
      rw [if_pos rfl] at hc
      simp only [FPSEstimator.FPS, FPSEstimator.countSamplesCase, hscan]
      rw [if_neg hlen, if_pos trivial, if_neg (by omega : ¬ i ≤ 0)]
      simp [hc]
    · subst hm
      rw [if_neg (by decide)] at hc
      simp only [FPSEstimator.FPS, FPSEstimator.averageIntervalsCase, hscan]
      rw [if_neg hlen, if_neg (by decide), if_pos trivial,
          if_neg (by omega : ¬ i < 0)]
      simp [hc]
  refine ⟨hmain, ⟨?_, ?_⟩,
    ⟨(est.m_sample_times.drop (i - 1).toNat).take 2, ?_⟩, ?_⟩
  · rw [hmain]; exact List.take_append_drop _ _
  · rw [List.length_take]
    exact Nat.min_eq_left (by omega)
  · rw [hmain]
    conv_lhs => rw [← List.take_append_drop 2
      (est.m_sample_times.drop (i - 1).toNat)]
    congr 1
    rw [List.drop_drop]
    congr 1
    omega
  · intro hs
    rw [hmain]
    exact List.Pairwise.sublist (List.drop_sublist _ _) hs

/-- C7 witness: a concrete 1000th successful AverageIntervals query (its
case's counter at 999, anchor index `i = 3`) drops exactly the
`i - 1 = 2` oldest entries. -/
theorem c7_prune_amended_witness :
    (FPSEstimator.FPS
        ⟨[0, 1000000000, 2000000000, 2500000000, 4000000000], 0, 0, 0, 999⟩
        1 false 1 4000000000).2.m_sample_times =
      ([0, 1000000000, 2000000000, 2500000000, 4000000000] : List ℤ).drop
        ((3 : ℤ) - 1).toNat :=
  (c7_prune_amended
    ⟨[0, 1000000000, 2000000000, 2500000000, 4000000000], 0, 0, 0, 999⟩
    1 false 4000000000 1 3 1 (Or.inr rfl)
    (by norm_num [scanIdx, outOfWindow, NanosecondsBetween])
    (by decide) (by decide) rfl).1

/-- C8 (counterexample): a query with the out-of-range method value 2 on an
*empty* history does not fail fatally — the empty-history check precedes the
`switch`, so the call returns the insufficient-data sentinel, contradicting
the claim that such a call never returns a value. -/
theorem c8_invalid_method_counterexample :
    (FPSEstimator.FPS FPSEstimator.init 1 false 2 0).1 =
        FPSResult.insufficient ∧
    FPSResult.insufficient ≠ FPSResult.thrown := by decide

/-- C8 (amended): on a non-empty history, a query whose method value is
outside {CountSamples = 0, AverageIntervals = 1} throws (the `default:`
switch case) and changes nothing; with an empty history the sentinel is
returned before the method is ever examined. -/
theorem c8_invalid_method_throws_nonempty (est : FPSEstimator) (w : ℚ)
    (soft : Bool) (m now : ℤ) (hne : est.m_sample_times ≠ [])
    (h0 : m ≠ 0) (h1 : m ≠ 1) :
    est.FPS w soft m now = (FPSResult.thrown, est) := by
  have hlen : ¬ est.m_sample_times.length = 0 := by
    simpa [List.length_eq_zero] using hne
  simp only [FPSEstimator.FPS, if_neg hlen, if_neg h0, if_neg h1]

/-- C8 witness: method value 2 on a one-sample history throws. -/
theorem c8_invalid_method_throws_nonempty_witness :
    FPSEstimator.FPS ⟨[0], 0, 0, 0, 0⟩ 1 false 2 0 =
      (FPSResult.thrown, ⟨[0], 0, 0, 0, 0⟩) :=
  c8_invalid_method_throws_nonempty ⟨[0], 0, 0, 0, 0⟩ 1 false 2 0
    (by decide) (by decide) (by decide)

/-- C9: `Reset` empties the sample history and changes nothing else
(`m_rolling`, `m_decay_factor` and both cleanup counters keep their values),
and any query issued immediately afterwards — any window, soft flag and
method — returns the insufficient-data sentinel. -/
theorem c9_reset_clears_only_history (est : FPSEstimator) (w : ℚ)
    (soft : Bool) (m now : ℤ) :
    est.Reset.m_sample_times = [] ∧
    est.Reset.m_rolling = est.m_rolling ∧
    est.Reset.m_decay_factor = est.m_decay_factor ∧
    est.Reset.cleanup_count = est.cleanup_count ∧
    est.Reset.cleanup_avg = est.cleanup_avg ∧
    (est.Reset.FPS w soft m now).1 = FPSResult.insufficient :=
  ⟨rfl, rfl, rfl, rfl, rfl, rfl⟩

/-- C10: a freshly constructed estimator has `m_rolling = 0` (along with
empty history and `m_decay_factor = 0`); consequently any successful
soft-estimate query issued from a state whose rolling estimate is still 0
returns `(1 - decay_factor) * instantaneous` for that query. -/
theorem c10_fresh_rolling_zero :
    FPSEstimator.init.m_rolling = 0 ∧
    FPSEstimator.init.m_decay_factor = 0 ∧
    FPSEstimator.init.m_sample_times = [] ∧
    ∀ (est est' : FPSEstimator) (w : ℚ) (m now : ℤ) (v : ℚ),
      est.m_rolling = 0 →
      est.FPS w true m now = (FPSResult.value v, est') →
      v = (1 - est.m_decay_factor) * instEstimate est w m now := by
  refine ⟨rfl, rfl, rfl, ?_⟩
  intro est est' w m now v hr h
  obtain ⟨hroll, hv, _⟩ := FPS_value_characterization est est' w true m now v h
  rw [hv, if_pos rfl, hroll, hr, mul_zero, zero_add]

/-- C10 witness: a soft CountSamples query from a zero-rolling state with
decay factor 1/2 returns half the instantaneous estimate. -/
theorem c10_fresh_rolling_zero_witness :
    (1 / 2 : ℚ) =
      (1 - (⟨[0, 0, 1000000000], 0, 1/2, 0, 0⟩ : FPSEstimator).m_decay_factor)
        * instEstimate ⟨[0, 0, 1000000000], 0, 1/2, 0, 0⟩ 1 0 1000000000 :=
  c10_fresh_rolling_zero.2.2.2 ⟨[0, 0, 1000000000], 0, 1/2, 0, 0⟩
    ⟨[0, 0, 1000000000], 1/2, 1/2, 1, 0⟩ 1 0 1000000000 (1/2) rfl
    (by norm_num [FPSEstimator.FPS, FPSEstimator.countSamplesCase, scanIdx,
      outOfWindow, NanosecondsBetween])

end FramesPerSecond
